import Mathlib

/-!
Verification of the snow-deformation subsystem of openmw-snow.

Shallow embedding of `components/terrain/snowdeformation.cpp` (the
`Terrain::SnowDeformationManager` class together with its three inline GLSL
fragment shaders), of the active branch of
`files/shaders/compatibility/terrain.vert`, and of
`components/terrain/snowdeformationupdater.cpp`.

Modelling conventions:
* GLSL `float` arithmetic is embedded as exact rational arithmetic (`ℚ`).
* Texels carry the two channels the shaders actually use: `R` = depth and
  `G` = age (`B` is constant 0 and `A` constant 1 in every shader output).
* A texture is modelled as a total function from UV coordinates to texels
  (the grids are sampled with `LINEAR` filtering at exact texel centres in
  the shaders; per-texel contracts are independent of the filtering).
* GLSL `length` (a square root, hence irrational in general) is passed to
  the stamp shader as an explicit function parameter `len`; theorems tie its
  value at the relevant vector to the Euclidean length by the hypothesis
  `0 ≤ d ∧ d * d = sqNorm2 v`.
* The scheduler's two distance tests (`distanceFromLastBlit > mBlitThreshold`
  and `distanceMoved > mFootprintInterval`) are embedded as comparisons of
  squared distances against squared thresholds, which is equivalent for the
  nonnegative thresholds the program uses (`mBlitThreshold = 50`, and
  `mFootprintInterval ∈ {2, 3, 5, 4, 7/2}` from the terrain table).
-/

namespace Terrain

/-- A 2-component vector of rationals (GLSL `vec2`, OpenMW world XY). -/
structure Vec2 where
  x : ℚ
  y : ℚ
deriving DecidableEq, Repr

/-- A 3-component vector of rationals (GLSL `vec3` / `osg::Vec3f`). -/
structure Vec3 where
  x : ℚ
  y : ℚ
  z : ℚ
deriving DecidableEq, Repr

/-- Componentwise difference of 2-vectors. -/
def vsub2 (a b : Vec2) : Vec2 := ⟨a.x - b.x, a.y - b.y⟩

/-- Componentwise difference of 3-vectors. -/
def vsub3 (a b : Vec3) : Vec3 := ⟨a.x - b.x, a.y - b.y, a.z - b.z⟩

/-- Squared Euclidean norm of a 2-vector (`length(v)` squared). -/
def sqNorm2 (v : Vec2) : ℚ := v.x * v.x + v.y * v.y

/-- Squared Euclidean norm of a 3-vector. -/
def sqNorm3 (v : Vec3) : ℚ := v.x * v.x + v.y * v.y + v.z * v.z

/-- One texel of a deformation texture: `R` = depth, `G` = age
(see `createDeformationTextures`, snowdeformation.cpp lines 143-144). -/
structure Texel where
  depth : ℚ
  age : ℚ
deriving DecidableEq, Repr

/-- A deformation texture, as the field of texels indexed by UV. -/
def Grid : Type := Vec2 → Texel

/-- GLSL `clamp(x, lo, hi) = min(max(x, lo), hi)`. -/
def clampQ (x lo hi : ℚ) : ℚ := min (max x lo) hi

/-- GLSL `smoothstep(edge0, edge1, x)`:
`t = clamp((x - edge0) / (edge1 - edge0), 0, 1); t * t * (3 - 2 * t)`. -/
def smoothstep (edge0 edge1 x : ℚ) : ℚ :=
  let t := clampQ ((x - edge0) / (edge1 - edge0)) 0 1
  t * t * (3 - 2 * t)

/-- GLSL `mod(x, y) = x - y * floor(x / y)`. -/
def glslMod (x y : ℚ) : ℚ := x - y * (⌊x / y⌋ : ℚ)

/-- World position of a texel, from the footprint and blit fragment shaders:
`worldPos = center + (texUV - 0.5) * 2.0 * radius`
(snowdeformation.cpp line 242 and line 544). -/
def worldPosOf (center : Vec2) (radius : ℚ) (texUV : Vec2) : Vec2 :=
  ⟨center.x + (texUV.x - 1/2) * 2 * radius,
   center.y + (texUV.y - 1/2) * 2 * radius⟩

/-- The coordinate mapper of spec section 4.1:
`worldToUV(world, anchor, R) = ((world - anchor) / R) * 0.5 + 0.5`,
written exactly as the blit fragment shader computes `oldUV`
(snowdeformation.cpp line 547). -/
def worldToUV (world anchor : Vec2) (R : ℚ) : Vec2 :=
  ⟨(world.x - anchor.x) / R * (1/2) + 1/2,
   (world.y - anchor.y) / R * (1/2) + 1/2⟩

/-- UV lies in the closed unit square, as tested by the blit fragment shader
(`oldUV.x >= 0.0 && oldUV.x <= 1.0 && oldUV.y >= 0.0 && oldUV.y <= 1.0`). -/
def inUnitSquare (uv : Vec2) : Prop :=
  0 ≤ uv.x ∧ uv.x ≤ 1 ∧ 0 ≤ uv.y ∧ uv.y ≤ 1

instance (uv : Vec2) : Decidable (inUnitSquare uv) := by
  unfold inUnitSquare; infer_instance

/-- The footprint (stamp) fragment shader, from
`SnowDeformationManager::setupFootprintStamping`
(snowdeformation.cpp lines 233-257).  `len` stands for GLSL `length`;
the shader computes `dist = length(worldPos - footprintCenter)`. -/
def footprintShader (previousDeformation : Grid)
    (deformationCenter : Vec2) (deformationRadius : ℚ)
    (footprintCenter : Vec2) (footprintRadius deformationDepth currentTime : ℚ)
    (len : Vec2 → ℚ) (texUV : Vec2) : Texel :=
  let prevDeform := previousDeformation texUV
  let prevDepth := prevDeform.depth
  let prevAge := prevDeform.age
  let worldPos := worldPosOf deformationCenter deformationRadius texUV
  let dist := len (vsub2 worldPos footprintCenter)
  let influence := 1 - smoothstep (footprintRadius * (1/2)) footprintRadius dist
  let newDepth := max prevDepth (influence * deformationDepth)
  let age := if influence > 1/100 then currentTime else prevAge
  ⟨newDepth, age⟩

/-- The blit (recenter) fragment shader, from
`SnowDeformationManager::setupBlitSystem`
(snowdeformation.cpp lines 533-559).  Out-of-range texels are written as
`vec4(0.0, 0.0, 0.0, 1.0)`, i.e. depth 0 and age 0. -/
def blitShader (sourceTexture : Grid) (oldCenter newCenter : Vec2)
    (textureRadius : ℚ) (texUV : Vec2) : Texel :=
  let worldPos := worldPosOf newCenter textureRadius texUV
  let oldUV := worldToUV worldPos oldCenter textureRadius
  if inUnitSquare oldUV then sourceTexture oldUV else ⟨0, 0⟩

/-- The per-texel body of the decay fragment shader, from
`SnowDeformationManager::setupDecaySystem`
(snowdeformation.cpp lines 625-654). -/
def decayTexel (currentTime decayTime : ℚ) (deform : Texel) : Texel :=
  let depth := deform.depth
  let age := deform.age
  let depth :=
    if depth > 1/100 then
      let timeSinceCreation := currentTime - age
      let decayFactor := clampQ (timeSinceCreation / decayTime) 0 1
      let depth := depth * (1 - decayFactor)
      if depth < 1/100 then 0 else depth
    else depth
  ⟨depth, age⟩

/-- The decay fragment shader as a whole-texture pass. -/
def decayShader (currentDeformation : Grid) (currentTime decayTime : ℚ)
    (texUV : Vec2) : Texel :=
  decayTexel currentTime decayTime (currentDeformation texUV)

/-- One row of `mTerrainParams` (snowdeformation.cpp lines 51-57):
footprint radius, deformation depth, stamp interval, and the substring
pattern matched against the detected terrain texture name. -/
structure TerrainParam where
  radius : ℚ
  depth : ℚ
  interval : ℚ
  pattern : String
deriving DecidableEq, Repr

/-- The terrain parameter table built in the constructor
(snowdeformation.cpp lines 51-57).  It is never modified afterwards. -/
def terrainParams : List TerrainParam :=
  [⟨60, 100, 2, "snow"⟩,
   ⟨30, 60, 3, "ash"⟩,
   ⟨15, 30, 5, "mud"⟩,
   ⟨20, 40, 4, "dirt"⟩,
   ⟨25, 50, 7/2, "sand"⟩]

/-- Substring occurrence on character lists, modelling C++
`std::string::find(pattern) != npos`. -/
def charListHas (s pat : List Char) : Bool :=
  match s with
  | [] => pat.isEmpty
  | _ :: t => pat.isPrefixOf s || charListHas t pat

/-- `haystack.find(needle) != std::string::npos`. -/
def strContains (haystack needle : String) : Bool :=
  charListHas haystack.toList needle.toList

/-- The mutable state of `Terrain::SnowDeformationManager`
(snowdeformation.hpp).  GPU objects (camera, geometry, state sets) are
configuration set up once in the constructor; the texel contents of the two
ping-pong textures are specified by the per-texel shader functions above, so
the state tracks which of the two textures is current
(`mCurrentTextureIndex`) rather than their contents.  The three
`setNodeMask` flags record which RTT pass, if any, is enabled for the
current frame. -/
structure SDState where
  enabled : Bool
  active : Bool
  currentTime : ℚ
  currentTextureIndex : ℕ
  textureCenter : Vec2
  footprintRadius : ℚ
  footprintInterval : ℚ
  deformationDepth : ℚ
  lastFootprintPos : Vec3
  timeSinceLastFootprint : ℚ
  lastBlitCenter : Vec2
  blitThreshold : ℚ
  decayTime : ℚ
  timeSinceLastDecay : ℚ
  decayUpdateInterval : ℚ
  currentTerrainType : String
  blitMask : Bool
  footprintMask : Bool
  decayMask : Bool
  rttMask : Bool
deriving DecidableEq, Repr

/-- The state established by the constructor
(snowdeformation.cpp lines 17-75): all masks start at 0 and
`mLastBlitCenter` is initialised to `mTextureCenter`. -/
def initState : SDState where
  enabled := true
  active := false
  currentTime := 0
  currentTextureIndex := 0
  textureCenter := ⟨0, 0⟩
  footprintRadius := 60
  footprintInterval := 2
  deformationDepth := 100
  lastFootprintPos := ⟨0, 0, 0⟩
  timeSinceLastFootprint := 999
  lastBlitCenter := ⟨0, 0⟩
  blitThreshold := 50
  decayTime := 120
  timeSinceLastDecay := 0
  decayUpdateInterval := 1/10
  currentTerrainType := "snow"
  blitMask := false
  footprintMask := false
  decayMask := false
  rttMask := false

/-- `SnowDeformationManager::shouldBeActive`
(snowdeformation.cpp lines 370-384).  `onSnow0` is the value returned by the
external query `SnowDetection::hasSnowAtPosition`; the source computes it and
then unconditionally overwrites it with `true`
("TEMPORARY for testing", line 381). -/
def shouldBeActive (onSnow0 : Bool) (s : SDState) (_worldPos : Vec3) : Bool :=
  if s.enabled = false then false
  else
    let onSnow := onSnow0
    let onSnow := true
    onSnow

/-- `SnowDeformationManager::setEnabled`
(snowdeformation.cpp lines 386-400). -/
def setEnabled (s : SDState) (enabled : Bool) : SDState :=
  if s.enabled ≠ enabled then
    let s1 := { s with enabled := enabled }
    if enabled = false then { s1 with active := false, rttMask := false }
    else s1
  else s

/-- `SnowDeformationManager::getDeformationTexture`
(snowdeformation.cpp lines 407-413); `none` models returning `nullptr`,
`some i` models returning `mDeformationTexture[i]`. -/
def getDeformationTexture (s : SDState) : Option ℕ :=
  if s.active = false ∨ s.enabled = false then none
  else some s.currentTextureIndex

/-- `SnowDeformationManager::getDeformationTextureParams`
(snowdeformation.cpp lines 415-420): the consumer reads the current anchor
(the world texture radius, 300, is constant). -/
def getDeformationTextureParams (s : SDState) : Vec2 := s.textureCenter

/-- `SnowDeformationManager::updateCameraPosition`
(snowdeformation.cpp lines 422-448): sets `mTextureCenter` to the player's
ground-plane XY (the RTT camera view matrix tracks the same point). -/
def updateCameraPosition (s : SDState) (playerPos : Vec3) : SDState :=
  { s with textureCenter := ⟨playerPos.x, playerPos.y⟩ }

/-- `SnowDeformationManager::stampFootprint`
(snowdeformation.cpp lines 450-490): flips the ping-pong index, binds the
previous texture as shader input and the new one as render target, and
enables the footprint RTT pass.  The uniform values it sets
(`footprintCenter`, `deformationCenter`, `currentTime`) are the parameters
fed to `footprintShader`. -/
def stampFootprint (s : SDState) : SDState :=
  { s with currentTextureIndex := 1 - s.currentTextureIndex,
           footprintMask := true, rttMask := true }

/-- `SnowDeformationManager::blitTexture`
(snowdeformation.cpp lines 678-714): flips the ping-pong index and enables
the blit RTT pass; its `oldCenter`/`newCenter` uniforms are the parameters
fed to `blitShader`. -/
def blitTexture (s : SDState) : SDState :=
  { s with currentTextureIndex := 1 - s.currentTextureIndex,
           blitMask := true, rttMask := true }

/-- `SnowDeformationManager::applyDecay`
(snowdeformation.cpp lines 716-751): flips the ping-pong index and enables
the decay RTT pass. -/
def applyDecay (s : SDState) : SDState :=
  { s with currentTextureIndex := 1 - s.currentTextureIndex,
           decayMask := true, rttMask := true }

/-- `SnowDeformationManager::detectTerrainTexture`
(snowdeformation.cpp lines 785-797): a placeholder that always returns
"snow". -/
def detectTerrainTexture (_worldPos : Vec3) : String := "snow"

/-- `SnowDeformationManager::updateTerrainParameters`
(snowdeformation.cpp lines 753-783): on a terrain-type change, adopt the
first table row whose pattern occurs in the detected name; otherwise keep
the current parameters. -/
def updateTerrainParameters (s : SDState) (playerPos : Vec3) : SDState :=
  let terrainType := detectTerrainTexture playerPos
  if terrainType = s.currentTerrainType then s
  else
    let s1 := { s with currentTerrainType := terrainType }
    match terrainParams.find? (fun p => strContains terrainType p.pattern) with
    | some p => { s1 with footprintRadius := p.radius,
                          deformationDepth := p.depth,
                          footprintInterval := p.interval }
    | none => s1

/-- Which of the three RTT operators ran in a frame. -/
inductive SDOp where
  | blit
  | stamp
  | decay
deriving DecidableEq, Repr

/-- The blit trigger of `update` (snowdeformation.cpp lines 328-331):
`distanceFromLastBlit > mBlitThreshold`, embedded on squared distances
(equivalent for the program's nonnegative threshold, 50). -/
def blitCondition (s : SDState) (playerPos : Vec3) : Bool :=
  decide (sqNorm2 (vsub2 ⟨playerPos.x, playerPos.y⟩ s.lastBlitCenter) >
    s.blitThreshold * s.blitThreshold)

/-- The stamp trigger of `update` (snowdeformation.cpp lines 350-351):
`distanceMoved > mFootprintInterval || mTimeSinceLastFootprint > 0.5f`,
the distance embedded squared (the table intervals are all positive).
It is evaluated after `mTimeSinceLastFootprint += dt`. -/
def stampCondition (s : SDState) (playerPos : Vec3) : Bool :=
  decide (sqNorm3 (vsub3 playerPos s.lastFootprintPos) >
      s.footprintInterval * s.footprintInterval) ||
    decide (s.timeSinceLastFootprint > 1/2)

/-- Line 348 of `update`: `mTimeSinceLastFootprint += dt`. -/
def advanceStampTimer (s : SDState) (dt : ℚ) : SDState :=
  { s with timeSinceLastFootprint := s.timeSinceLastFootprint + dt }

/-- Line 362 of `update`: `mTimeSinceLastDecay += dt`. -/
def advanceDecayTimer (s : SDState) (dt : ℚ) : SDState :=
  { s with timeSinceLastDecay := s.timeSinceLastDecay + dt }

/-- The decay trigger of `update` (snowdeformation.cpp line 363):
`mTimeSinceLastDecay > mDecayUpdateInterval`, checked after the timer
advance. -/
def decayDue (s : SDState) : Bool :=
  decide (s.timeSinceLastDecay > s.decayUpdateInterval)

/-- The first phase of `update` (snowdeformation.cpp lines 295-307):
advance `mCurrentTime` and reconcile `mActive` with `shouldBeActive`. -/
def activate (onSnow0 : Bool) (s : SDState) (dt : ℚ) (playerPos : Vec3) :
    SDState :=
  let s1 := { s with currentTime := s.currentTime + dt }
  if shouldBeActive onSnow0 s1 playerPos ≠ s1.active then
    { s1 with active := shouldBeActive onSnow0 s1 playerPos }
  else s1

/-- Lines 312-319 of `update`: disable all three RTT groups from the
previous frame. -/
def clearMasks (s : SDState) : SDState :=
  { s with blitMask := false, footprintMask := false, decayMask := false }

/-- The state of the manager at line 327 of `update`, after time/activation
bookkeeping, mask clearing and `updateTerrainParameters`, just before the
frame's single operation is chosen. -/
def midState (onSnow0 : Bool) (s : SDState) (dt : ℚ) (playerPos : Vec3) :
    SDState :=
  updateTerrainParameters (clearMasks (activate onSnow0 s dt playerPos))
    playerPos

/-- `SnowDeformationManager::update` (snowdeformation.cpp lines 293-368).
Returns the new state and the list of RTT operations enabled this frame, in
execution order. -/
def update (onSnow0 : Bool) (s : SDState) (dt : ℚ) (playerPos : Vec3) :
    SDState × List SDOp :=
  if s.enabled = false then (s, [])
  else
    let s2 := activate onSnow0 s dt playerPos
    if s2.active = false then (s2, [])
    else
      let s3 := midState onSnow0 s dt playerPos
      if blitCondition s3 playerPos then
        -- blitTexture(mTextureCenter, currentCenter); update mLastBlitCenter;
        -- updateCameraPosition; return (lines 331-342)
        let s4 := blitTexture s3
        let s5 := { s4 with lastBlitCenter := ⟨playerPos.x, playerPos.y⟩ }
        (updateCameraPosition s5 playerPos, [SDOp.blit])
      else
        -- updateCameraPosition; mTimeSinceLastFootprint += dt (lines 345-348)
        let s4 := advanceStampTimer (updateCameraPosition s3 playerPos) dt
        if stampCondition s4 playerPos then
          -- stampFootprint(playerPos); record position; reset timer;
          -- return (lines 351-359)
          let s5 := stampFootprint s4
          ({ s5 with lastFootprintPos := playerPos,
                     timeSinceLastFootprint := 0 }, [SDOp.stamp])
        else
          let s5 := advanceDecayTimer s4 dt
          if decayDue s5 then
            -- applyDecay(mTimeSinceLastDecay); reset timer (lines 361-367)
            ({ applyDecay s5 with timeSinceLastDecay := 0 }, [SDOp.decay])
          else (s5, [])

/-- Run a sequence of per-frame updates; each list entry is
`(hasSnowAtPosition result, dt, playerPos)`. -/
def runUpdates (s : SDState) (frames : List (Bool × ℚ × Vec3)) : SDState :=
  frames.foldl (fun st f => (update f.1 st f.2.1 f.2.2).1) s

/-- The `snowRaiseAmount` uniform value set by
`SnowDeformationUpdater::apply`
(snowdeformationupdater.cpp line 81): the manager's current
`mDeformationDepth`, i.e. the active profile's max depth. -/
def snowRaiseAmount (s : SDState) : ℚ := s.deformationDepth

/-- The vertex `z` computed by the ACTIVE snow-deformation branch of
`files/shaders/compatibility/terrain.vert` (lines 89-96, "TEST 4"):
`pattern = mod(abs(chunkWorldOffset.x) + abs(chunkWorldOffset.y), 1000.0);
vertex.z += pattern * 0.5;`.
This is the only code in the committed shader that modifies `vertex.z`;
it never samples `snowDeformationMap`. -/
def terrainVertexZ (snowDeformationEnabled : Bool) (chunkWorldOffset : Vec3)
    (vertexZ : ℚ) : ℚ :=
  if snowDeformationEnabled then
    let pattern := glslMod (|chunkWorldOffset.x| + |chunkWorldOffset.y|) 1000
    vertexZ + pattern * (1/2)
  else vertexZ

/-- The vertex `z` that the commented-out "TEST 9" block of terrain.vert
(lines 161-173) would compute if enabled: sample the deformation map at the
world-derived UV and subtract the depth, with no raise term. -/
def terrainVertexZTest9 (snowDeformationEnabled : Bool)
    (snowDeformationMap : Grid) (snowDeformationCenter : Vec2)
    (snowDeformationRadius : ℚ) (chunkWorldOffset : Vec3) (vertex : Vec3) :
    ℚ :=
  if snowDeformationEnabled then
    let worldPos : Vec3 := ⟨vertex.x + chunkWorldOffset.x,
      vertex.y + chunkWorldOffset.y, vertex.z + chunkWorldOffset.z⟩
    let relativePos := vsub2 ⟨worldPos.x, worldPos.y⟩ snowDeformationCenter
    let deformUV : Vec2 := ⟨relativePos.x / snowDeformationRadius * (1/2) + 1/2,
      relativePos.y / snowDeformationRadius * (1/2) + 1/2⟩
    let deformationDepth := (snowDeformationMap deformUV).depth
    vertex.z - deformationDepth
  else vertex.z

/-- Modelled from the spec (section 6, Consumer output), for comparison with
the committed shader: the raise-then-subtract displacement convention
`displaced height = baseHeight + maxDepth - sampledDepth`. -/
def specDisplacedHeight (baseHeight maxDepth sampledDepth : ℚ) : ℚ :=
  baseHeight + maxDepth - sampledDepth

/-- Repeated decay passes (one per scheduled decay frame), at the given
sequence of simulation times. -/
def iterateDecay (decayTime : ℚ) (times : List ℚ) (x : Texel) : Texel :=
  times.foldl (fun a t => decayTexel t decayTime a) x

/-- The blit trigger of a frame, stated on the pre-operation state: the
anchor has moved further from `mLastBlitCenter` than `mBlitThreshold`
(squared comparison, snowdeformation.cpp lines 328-331). -/
def blitTrigger (onSnow0 : Bool) (s : SDState) (dt : ℚ) (pos : Vec3) :
    Prop :=
  sqNorm2 (vsub2 ⟨pos.x, pos.y⟩ (midState onSnow0 s dt pos).lastBlitCenter) >
    (midState onSnow0 s dt pos).blitThreshold *
      (midState onSnow0 s dt pos).blitThreshold

/-- The stamp trigger of a frame, stated on the pre-operation state: the
player moved further than `mFootprintInterval` from the last stamp, or the
stamp timer (after the `+= dt` advance) exceeds the 0.5 s fallback ceiling
(snowdeformation.cpp lines 348-351). -/
def stampTrigger (onSnow0 : Bool) (s : SDState) (dt : ℚ) (pos : Vec3) :
    Prop :=
  sqNorm3 (vsub3 pos (midState onSnow0 s dt pos).lastFootprintPos) >
      (midState onSnow0 s dt pos).footprintInterval *
        (midState onSnow0 s dt pos).footprintInterval ∨
    (midState onSnow0 s dt pos).timeSinceLastFootprint + dt > 1/2

/-- The decay trigger of a frame, stated on the pre-operation state: the
decay timer (after the `+= dt` advance) exceeds `mDecayUpdateInterval`
(snowdeformation.cpp lines 362-363). -/
def decayTrigger (onSnow0 : Bool) (s : SDState) (dt : ℚ) (pos : Vec3) :
    Prop :=
  (midState onSnow0 s dt pos).timeSinceLastDecay + dt >
    (midState onSnow0 s dt pos).decayUpdateInterval

/-! ### Helper lemmas (shared) -/

lemma clampQ01_nonneg (x : ℚ) : 0 ≤ clampQ x 0 1 := by
  unfold clampQ
  exact le_min (le_max_right x 0) zero_le_one

lemma clampQ01_le_one (x : ℚ) : clampQ x 0 1 ≤ 1 := by
  unfold clampQ
  exact min_le_right _ _

lemma clampQ01_eq_one (x : ℚ) (h : 1 ≤ x) : clampQ x 0 1 = 1 := by
  unfold clampQ
  rw [max_eq_left (le_trans zero_le_one h)]
  exact min_eq_right h

lemma decayTexel_age_eq (t D : ℚ) (x : Texel) : (decayTexel t D x).age = x.age :=
  rfl

lemma footprintShader_age_eq (grid : Grid) (C : Vec2) (R : ℚ) (fp : Vec2)
    (r m t : ℚ) (len : Vec2 → ℚ) (uv : Vec2) :
    (footprintShader grid C R fp r m t len uv).age =
      if 1 - smoothstep (r * (1/2)) r (len (vsub2 (worldPosOf C R uv) fp)) >
          1/100 then t
      else (grid uv).age :=
  rfl

lemma decayTexel_depth_le (t D : ℚ) (x : Texel) :
    (decayTexel t D x).depth ≤ x.depth := by
  simp only [decayTexel]
  by_cases h : x.depth > 1/100
  · have h0 : (0:ℚ) ≤ x.depth := le_of_lt (lt_trans (by norm_num) h)
    have hf0 := clampQ01_nonneg ((t - x.age) / D)
    rw [if_pos h]
    split
    · exact h0
    · nlinarith
  · rw [if_neg h]

lemma decayTexel_zero_of_elapsed (d a D t : ℚ) (hd : 1/100 < d) (hD : 0 < D)
    (ht : a + D ≤ t) : decayTexel t D ⟨d, a⟩ = ⟨0, a⟩ := by
  have h1 : (1:ℚ) ≤ (t - a) / D := (one_le_div hD).mpr (by linarith)
  unfold decayTexel
  simp only [clampQ01_eq_one _ h1]
  norm_num [hd]

lemma decayTexel_frozen (t D : ℚ) (x : Texel) (h : x.depth ≤ 1/100) :
    decayTexel t D x = x := by
  simp only [decayTexel]
  rw [if_neg (not_lt.mpr h)]

lemma iterateDecay_depth_le (D : ℚ) (times : List ℚ) (x : Texel) :
    (iterateDecay D times x).depth ≤ x.depth := by
  induction times generalizing x with
  | nil => exact le_refl _
  | cons t ts ih =>
    exact le_trans (ih (decayTexel t D x)) (decayTexel_depth_le t D x)

lemma updateTerrainParameters_pres (s : SDState) (pos : Vec3) :
    (updateTerrainParameters s pos).enabled = s.enabled ∧
    (updateTerrainParameters s pos).active = s.active ∧
    (updateTerrainParameters s pos).currentTextureIndex =
      s.currentTextureIndex ∧
    (updateTerrainParameters s pos).lastBlitCenter = s.lastBlitCenter := by
  simp only [updateTerrainParameters]
  by_cases h : detectTerrainTexture pos = s.currentTerrainType
  · rw [if_pos h]; simp
  · rw [if_neg h]
    cases hf : List.find?
        (fun p => strContains (detectTerrainTexture pos) p.pattern)
        terrainParams <;>
      simp [hf]

lemma activate_eq (onSnow0 : Bool) (s : SDState) (dt : ℚ) (pos : Vec3) :
    activate onSnow0 s dt pos =
      { s with currentTime := s.currentTime + dt, active := s.enabled } := by
  unfold activate shouldBeActive
  cases he : s.enabled <;> cases ha : s.active <;> simp [he, ha]

lemma midState_lastBlitCenter (onSnow0 : Bool) (s : SDState) (dt : ℚ)
    (pos : Vec3) :
    (midState onSnow0 s dt pos).lastBlitCenter = s.lastBlitCenter := by
  unfold midState
  rw [(updateTerrainParameters_pres _ _).2.2.2]
  simp [clearMasks, activate_eq]

lemma midState_currentTextureIndex (onSnow0 : Bool) (s : SDState) (dt : ℚ)
    (pos : Vec3) :
    (midState onSnow0 s dt pos).currentTextureIndex =
      s.currentTextureIndex := by
  unfold midState
  rw [(updateTerrainParameters_pres _ _).2.2.1]
  simp [clearMasks, activate_eq]

lemma blit_bridge (onSnow0 : Bool) (s : SDState) (dt : ℚ) (pos : Vec3) :
    blitCondition (midState onSnow0 s dt pos) pos = true ↔
      blitTrigger onSnow0 s dt pos := by
  simp [blitCondition, blitTrigger]

lemma stamp_bridge (onSnow0 : Bool) (s : SDState) (dt : ℚ) (pos : Vec3) :
    stampCondition
        (advanceStampTimer
          (updateCameraPosition (midState onSnow0 s dt pos) pos) dt) pos =
        true ↔
      stampTrigger onSnow0 s dt pos := by
  simp [stampCondition, stampTrigger, advanceStampTimer, updateCameraPosition]

lemma decay_bridge (onSnow0 : Bool) (s : SDState) (dt : ℚ) (pos : Vec3) :
    decayDue
        (advanceDecayTimer
          (advanceStampTimer
            (updateCameraPosition (midState onSnow0 s dt pos) pos) dt) dt) =
        true ↔
      decayTrigger onSnow0 s dt pos := by
  simp [decayDue, decayTrigger, advanceDecayTimer, advanceStampTimer,
    updateCameraPosition]

lemma update_disabled (onSnow0 : Bool) (s : SDState) (dt : ℚ) (pos : Vec3)
    (h : s.enabled = false) : update onSnow0 s dt pos = (s, []) := by
  simp [update, h]

lemma runUpdates_disabled (s : SDState) (frames : List (Bool × ℚ × Vec3))
    (h : s.enabled = false) : runUpdates s frames = s := by
  induction frames generalizing s with
  | nil => rfl
  | cons f fs ih =>
    show runUpdates (update f.1 s f.2.1 f.2.2).1 fs = s
    rw [update_disabled f.1 s f.2.1 f.2.2 h]
    exact ih s h

lemma setEnabled_false_enabled (s : SDState) :
    (setEnabled s false).enabled = false := by
  unfold setEnabled
  cases he : s.enabled <;> simp [he]

/-! ### Claims -/

/-- C1.  Stamp operator per-texel contract: with `d` the distance from the
texel's world position (computed from its UV and the current anchor `C` and
radius `R`) to the stamp position, the footprint shader writes
`depth = max(oldDepth, influence * m)` with
`influence = 1 - smoothstep(r * 0.5, r, d)`, and writes `age = t` exactly
when `influence` exceeds the `0.01` threshold, keeping the old age
otherwise. -/
theorem footprint_stamp_texel_contract (grid : Grid) (C : Vec2) (R : ℚ)
    (fp : Vec2) (r m t : ℚ) (len : Vec2 → ℚ) (uv : Vec2) (d : ℚ)
    (hd : 0 ≤ d ∧ d * d = sqNorm2 (vsub2 (worldPosOf C R uv) fp))
    (hlen : len (vsub2 (worldPosOf C R uv) fp) = d) :
    footprintShader grid C R fp r m t len uv =
      ⟨max (grid uv).depth ((1 - smoothstep (r * (1/2)) r d) * m),
       if 1 - smoothstep (r * (1/2)) r d > 1/100 then t
       else (grid uv).age⟩ := by
  simp only [footprintShader]
  rw [hlen]

/-- Witness for C1: texel at UV (1/2, 1/2) of the field centred at the
origin with radius 300 sits at world (0, 0); a stamp at world (3, 4) is at
Euclidean distance exactly 5, inside the falloff plateau of radius 60, so
depth rises to the full magnitude 100 and age becomes the stamp time 7. -/
theorem footprint_stamp_texel_contract_wit :
    ((0:ℚ) ≤ 5 ∧
      (5:ℚ) * 5 = sqNorm2 (vsub2 (worldPosOf ⟨0, 0⟩ 300 ⟨1/2, 1/2⟩) ⟨3, 4⟩)) ∧
    footprintShader (fun _ => ⟨2, 3⟩) ⟨0, 0⟩ 300 ⟨3, 4⟩ 60 100 7
        (fun _ => (5:ℚ)) ⟨1/2, 1/2⟩ =
      ⟨max (2:ℚ) ((1 - smoothstep (60 * (1/2)) 60 5) * 100),
       if 1 - smoothstep (60 * (1/2)) 60 5 > 1/100 then (7:ℚ) else 3⟩ :=
  ⟨by norm_num [sqNorm2, vsub2, worldPosOf],
   footprint_stamp_texel_contract (fun _ => ⟨2, 3⟩) ⟨0, 0⟩ 300 ⟨3, 4⟩ 60 100 7
     (fun _ => (5:ℚ)) ⟨1/2, 1/2⟩ 5
     ⟨by norm_num, by norm_num [sqNorm2, vsub2, worldPosOf]⟩ rfl⟩

/-- C3.  Recenter (blit) per-texel contract: the destination texel's world
position is computed from its UV with the new anchor; mapped into the old
frame by `worldToUV` it gives `oldUV`; inside the closed unit square the
texel (depth and age) is copied from the source at `oldUV`, otherwise the
texel is written with zero depth (the shader writes `vec4(0,0,0,1)`). -/
theorem blit_texel_contract (src : Grid) (Cold Cnew : Vec2) (R : ℚ)
    (uv : Vec2) :
    (inUnitSquare (worldToUV (worldPosOf Cnew R uv) Cold R) →
      blitShader src Cold Cnew R uv =
        src (worldToUV (worldPosOf Cnew R uv) Cold R)) ∧
    (¬ inUnitSquare (worldToUV (worldPosOf Cnew R uv) Cold R) →
      blitShader src Cold Cnew R uv = ⟨0, 0⟩) := by
  constructor <;> intro h <;> simp [blitShader, h]

/-- Witness for C3: recentering from anchor (0,0) to (60,0) with radius
300; the destination texel at UV (1/2, 1/2) has world position (60, 0),
which maps to oldUV (3/5, 1/2) inside the unit square, so the source texel
is copied. -/
theorem blit_texel_contract_wit :
    inUnitSquare (worldToUV (worldPosOf ⟨60, 0⟩ 300 ⟨1/2, 1/2⟩) ⟨0, 0⟩ 300) ∧
    blitShader (fun _ => ⟨7, 3⟩) ⟨0, 0⟩ ⟨60, 0⟩ 300 ⟨1/2, 1/2⟩ = ⟨7, 3⟩ :=
  ⟨by norm_num [inUnitSquare, worldToUV, worldPosOf],
   (blit_texel_contract (fun _ => ⟨7, 3⟩) ⟨0, 0⟩ ⟨60, 0⟩ 300 ⟨1/2, 1/2⟩).1
     (by norm_num [inUnitSquare, worldToUV, worldPosOf])⟩

/-- Counterexample to C4 as stated: the texel (depth 1/200, age 0) has
depth strictly greater than 0, so by the claim a decay pass at time 60 with
decayDuration 120 should compute decayFactor 1/2, newDepth 1/400, and snap
it to exactly 0 (1/400 is below the 0.01 epsilon); the decay shader instead
passes the texel through unchanged, because its guard is `depth > 0.01`,
not `depth > 0`. -/
theorem decay_texel_claim_cex :
    (0:ℚ) < 1/200 ∧
    (1/200 : ℚ) * (1 - clampQ ((60 - 0) / 120) 0 1) < 1/100 ∧
    decayTexel 60 120 ⟨1/200, 0⟩ = ⟨1/200, 0⟩ ∧
    (decayTexel 60 120 ⟨1/200, 0⟩).depth ≠ 0 :=
  ⟨by norm_num, by norm_num [clampQ], by norm_num [decayTexel],
   by norm_num [decayTexel]⟩

/-- C4 (amended).  Decay per-texel contract with the code's actual
pass-through threshold: for every texel with depth > 0.01, the decay pass
at time `t` computes `elapsed = t - age`,
`decayFactor = clamp(elapsed / decayDuration, 0, 1)`,
`newDepth = depth * (1 - decayFactor)` snapped to exactly 0 when it falls
below the 0.01 epsilon, with age passed through unchanged; texels with
depth ≤ 0.01 (not merely zero-depth texels) pass through unchanged. -/
theorem decay_texel_contract (t D : ℚ) (x : Texel) :
    (1/100 < x.depth →
      decayTexel t D x =
        ⟨if x.depth * (1 - clampQ ((t - x.age) / D) 0 1) < 1/100 then 0
          else x.depth * (1 - clampQ ((t - x.age) / D) 0 1),
         x.age⟩) ∧
    (x.depth ≤ 1/100 → decayTexel t D x = x) := by
  constructor <;> intro h
  · simp only [decayTexel]
    rw [if_pos h]
  · exact decayTexel_frozen t D x h

/-- Witness for C4 (amended): depth 20 stamped at time 0, decayed at time
60 with duration 120, halves to 10 (and 10 is not snapped). -/
theorem decay_texel_contract_wit :
    (1/100 : ℚ) < 20 ∧
    decayTexel 60 120 ⟨20, 0⟩ =
      ⟨if (20:ℚ) * (1 - clampQ ((60 - 0) / 120) 0 1) < 1/100 then 0
        else (20:ℚ) * (1 - clampQ ((60 - 0) / 120) 0 1),
       (0:ℚ)⟩ :=
  ⟨by norm_num, (decay_texel_contract 60 120 ⟨20, 0⟩).1 (by norm_num)⟩

/-- Counterexample to C6 as stated: a stamp whose influence at the texel is
1 (distance 0) over a texel that already holds depth 100 with magnitude 50:
the new depth `max(100, 1 * 50) = 100` is NOT strictly greater than the old
depth, yet the age is rewritten from 0 to the stamp time 5 — the age update
is keyed on `influence > 0.01`, not on the depth having increased.  (The
`len` argument 0 is the true Euclidean distance here: the texel at
UV (1/2, 1/2) of the field centred at (0,0) sits at world (0,0), which is
the stamp position.) -/
theorem age_semantics_cex :
    (0:ℚ) * 0 = sqNorm2 (vsub2 (worldPosOf ⟨0, 0⟩ 300 ⟨1/2, 1/2⟩) ⟨0, 0⟩) ∧
    footprintShader (fun _ => ⟨100, 0⟩) ⟨0, 0⟩ 300 ⟨0, 0⟩ 60 50 5
        (fun _ => (0:ℚ)) ⟨1/2, 1/2⟩ = ⟨100, 5⟩ ∧
    ¬ ((100:ℚ) > 100) ∧ (5:ℚ) ≠ 0 :=
  ⟨by norm_num [sqNorm2, vsub2, worldPosOf],
   by norm_num [footprintShader, worldPosOf, vsub2, smoothstep, clampQ],
   by norm_num, by norm_num⟩

/-- C6 (amended).  Age semantics as implemented: the stamp shader rewrites
a texel's age to the stamp timestamp exactly when the stamp's influence at
that texel exceeds the 0.01 threshold — regardless of whether the depth
actually increased — and a decay pass never changes any texel's age. -/
theorem age_semantics (grid : Grid) (C : Vec2) (R : ℚ) (fp : Vec2)
    (r m t : ℚ) (len : Vec2 → ℚ) (uv : Vec2) (td D : ℚ) (x : Texel) :
    ((footprintShader grid C R fp r m t len uv).age =
      if 1 - smoothstep (r * (1/2)) r (len (vsub2 (worldPosOf C R uv) fp)) >
          1/100 then t
      else (grid uv).age) ∧
    (decayTexel td D x).age = x.age :=
  ⟨footprintShader_age_eq grid C R fp r m t len uv, decayTexel_age_eq td D x⟩

/-- Counterexample to C7 as stated: a texel stamped to depth 1/200 > 0 at
time 0 is NOT restored to 0 by a decay pass at time 0 + 120 (the full decay
duration): the pass leaves it at 1/200, because depths at or below the 0.01
guard are never decayed. -/
theorem decay_convergence_cex :
    (0:ℚ) < 1/200 ∧
    decayTexel (0 + 120) 120 ⟨1/200, 0⟩ = ⟨1/200, 0⟩ ∧
    (decayTexel (0 + 120) 120 ⟨1/200, 0⟩).depth ≠ 0 :=
  ⟨by norm_num, by norm_num [decayTexel], by norm_num [decayTexel]⟩

/-- C7 (amended).  Decay convergence with the code's 0.01 pass-through
threshold: every decay pass is non-increasing on depth (hence depth is
non-increasing on the whole interval under repeated passes), a decay pass
at or after `t0 + decayDuration` yields depth exactly 0 whenever the depth
entering that pass still exceeds 0.01 (in particular a texel stamped to
depth d0 > 0.01 at time t0 with no further stamps), and a texel whose depth
is at or below 0.01 is left unchanged by decay. -/
theorem decay_convergence (D : ℚ) (times : List ℚ) (x : Texel)
    (d0 t0 t : ℚ) :
    ((decayTexel t D x).depth ≤ x.depth) ∧
    ((iterateDecay D times x).depth ≤ x.depth) ∧
    (1/100 < d0 → 0 < D → t0 + D ≤ t → decayTexel t D ⟨d0, t0⟩ = ⟨0, t0⟩) ∧
    (x.depth ≤ 1/100 → decayTexel t D x = x) :=
  ⟨decayTexel_depth_le t D x, iterateDecay_depth_le D times x,
   fun h1 h2 h3 => decayTexel_zero_of_elapsed d0 t0 D t h1 h2 h3,
   fun h => decayTexel_frozen t D x h⟩

/-- Witness for C7 (amended): the spec's own example — depth 100 stamped at
time 0, decay duration 120; the decay pass at time 120 yields exactly 0. -/
theorem decay_convergence_wit :
    ((1:ℚ)/100 < 100 ∧ (0:ℚ) < 120 ∧ (0:ℚ) + 120 ≤ 120) ∧
    decayTexel 120 120 ⟨100, 0⟩ = ⟨0, 0⟩ :=
  ⟨⟨by norm_num, by norm_num, by norm_num⟩,
   (decay_convergence 120 [] ⟨100, 0⟩ 100 0 120).2.2.1 (by norm_num)
     (by norm_num) (by norm_num)⟩

/-- C8.  The committed consumer shader does not implement the
raise-then-subtract displacement convention.  At a vertex with base height
0 in the chunk at world offset (4096, 8192, 0), with the system enabled, an
undisturbed field (sampled depth 0) and the snow profile maxDepth 100, the
claim requires displaced height 0 + 100 - 0 = 100; the active shader branch
instead adds the diagnostic chunk-offset pattern
`mod(4096 + 8192, 1000) * 0.5 = 144` and never samples the deformation map,
while the commented-out TEST 9 block would compute 0 - 0 = 0, also without
the maxDepth raise (the `snowRaiseAmount` uniform set by
`SnowDeformationUpdater::apply` is never declared or read by the shader). -/
theorem consumer_displacement_missing :
    terrainVertexZ true ⟨4096, 8192, 0⟩ 0 = 144 ∧
    terrainVertexZTest9 true (fun _ => ⟨0, 0⟩) ⟨0, 0⟩ 300 ⟨4096, 8192, 0⟩
        ⟨0, 0, 0⟩ = 0 ∧
    specDisplacedHeight 0 (snowRaiseAmount initState) 0 = 100 ∧
    (144:ℚ) ≠ 100 ∧ (0:ℚ) ≠ 100 :=
  ⟨by norm_num [terrainVertexZ, glslMod],
   by norm_num [terrainVertexZTest9],
   by norm_num [specDisplacedHeight, snowRaiseAmount, initState],
   by norm_num, by norm_num⟩

/-- C9.  `shouldBeActive` returns the enabled flag, regardless of the
result of the snow-detection query: the query result `onSnow0` is computed
and then unconditionally overwritten with `true`, so whenever the system is
enabled the function returns `true` for every world position. -/
theorem shouldBeActive_ignores_detection (onSnow0 : Bool) (s : SDState)
    (pos : Vec3) : shouldBeActive onSnow0 s pos = s.enabled := by
  unfold shouldBeActive
  cases s.enabled <;> simp

/-- C2.  Scheduler exclusivity: a single invocation of the per-frame
`update` enables at most one of the three RTT operators (its operation list
has length at most 1), nothing runs while disabled, and when enabled the
operator is selected by strict priority: the blit runs exactly when the
blit trigger holds; the stamp runs exactly when the blit trigger fails and
the stamp trigger holds; the decay runs exactly when both fail and the
decay timer is due. -/
theorem scheduler_exclusivity (onSnow0 : Bool) (s : SDState) (dt : ℚ)
    (pos : Vec3) :
    (update onSnow0 s dt pos).2.length ≤ 1 ∧
    (s.enabled = false → (update onSnow0 s dt pos).2 = []) ∧
    (s.enabled = true →
      (((update onSnow0 s dt pos).2 = [SDOp.blit]) ↔
        blitTrigger onSnow0 s dt pos) ∧
      (((update onSnow0 s dt pos).2 = [SDOp.stamp]) ↔
        (¬ blitTrigger onSnow0 s dt pos ∧ stampTrigger onSnow0 s dt pos)) ∧
      (((update onSnow0 s dt pos).2 = [SDOp.decay]) ↔
        (¬ blitTrigger onSnow0 s dt pos ∧ ¬ stampTrigger onSnow0 s dt pos ∧
          decayTrigger onSnow0 s dt pos))) := by
  by_cases he : s.enabled = true
  · have h2 : (activate onSnow0 s dt pos).active = true := by
      rw [activate_eq]; exact he
    by_cases hb : blitCondition (midState onSnow0 s dt pos) pos = true
    · have hops : (update onSnow0 s dt pos).2 = [SDOp.blit] := by
        simp [update, he, h2, hb]
      have hbt : blitTrigger onSnow0 s dt pos := (blit_bridge _ _ _ _).mp hb
      refine ⟨?_, ?_, ?_⟩
      · rw [hops]; norm_num
      · intro hf; rw [hf] at he; exact Bool.noConfusion he
      · intro _
        exact ⟨by simp [hops, hbt], by simp [hops, hbt], by simp [hops, hbt]⟩
    · have hbt : ¬ blitTrigger onSnow0 s dt pos := by
        rw [← blit_bridge onSnow0 s dt pos]; simpa using hb
      by_cases hs : stampCondition
          (advanceStampTimer
            (updateCameraPosition (midState onSnow0 s dt pos) pos) dt) pos =
          true
      · have hops : (update onSnow0 s dt pos).2 = [SDOp.stamp] := by
          simp [update, he, h2, hb, hs]
        have hst : stampTrigger onSnow0 s dt pos := (stamp_bridge _ _ _ _).mp hs
        refine ⟨?_, ?_, ?_⟩
        · rw [hops]; norm_num
        · intro hf; rw [hf] at he; exact Bool.noConfusion he
        · intro _
          exact ⟨by simp [hops, hbt], by simp [hops, hbt, hst],
            by simp [hops, hbt, hst]⟩
      · have hst : ¬ stampTrigger onSnow0 s dt pos := by
          rw [← stamp_bridge onSnow0 s dt pos]; simpa using hs
        by_cases hd : decayDue
            (advanceDecayTimer
              (advanceStampTimer
                (updateCameraPosition (midState onSnow0 s dt pos) pos) dt)
              dt) = true
        · have hops : (update onSnow0 s dt pos).2 = [SDOp.decay] := by
            simp [update, he, h2, hb, hs, hd]
          have hdt : decayTrigger onSnow0 s dt pos :=
            (decay_bridge _ _ _ _).mp hd
          refine ⟨?_, ?_, ?_⟩
          · rw [hops]; norm_num
          · intro hf; rw [hf] at he; exact Bool.noConfusion he
          · intro _
            exact ⟨by simp [hops, hbt], by simp [hops, hst],
              by simp [hops, hbt, hst, hdt]⟩
        · have hdt : ¬ decayTrigger onSnow0 s dt pos := by
            rw [← decay_bridge onSnow0 s dt pos]; simpa using hd
          have hops : (update onSnow0 s dt pos).2 = [] := by
            simp [update, he, h2, hb, hs, hd]
          refine ⟨?_, ?_, ?_⟩
          · rw [hops]; norm_num
          · intro hf; rw [hf] at he; exact Bool.noConfusion he
          · intro _
            exact ⟨by simp [hops, hbt], by simp [hops, hst],
              by simp [hops, hdt]⟩
  · have he' : s.enabled = false := by
      revert he; cases s.enabled <;> simp
    have hops : (update onSnow0 s dt pos).2 = [] := by simp [update, he']
    refine ⟨?_, fun _ => hops, ?_⟩
    · rw [hops]; norm_num
    · intro hf
      rw [hf] at he'
      exact Bool.noConfusion he'

/-- Witness for C2: from the constructor state, a first frame with dt = 1
at the origin: the anchor has not moved (no blit), but the stamp timer
(999 + 1) exceeds the 0.5 s ceiling, so exactly the stamp runs. -/
theorem scheduler_exclusivity_wit :
    (¬ blitTrigger false initState 1 ⟨0, 0, 0⟩ ∧
      stampTrigger false initState 1 ⟨0, 0, 0⟩) ∧
    (update false initState 1 ⟨0, 0, 0⟩).2 = [SDOp.stamp] := by
  have hnb : ¬ blitTrigger false initState 1 ⟨0, 0, 0⟩ := by
    norm_num [blitTrigger, midState, updateTerrainParameters,
      detectTerrainTexture, clearMasks, activate, shouldBeActive, initState,
      sqNorm2, vsub2]
  have hst : stampTrigger false initState 1 ⟨0, 0, 0⟩ := by
    norm_num [stampTrigger, midState, updateTerrainParameters,
      detectTerrainTexture, clearMasks, activate, shouldBeActive, initState,
      sqNorm3, vsub3]
  exact ⟨⟨hnb, hst⟩,
    ((scheduler_exclusivity false initState 1 ⟨0, 0, 0⟩).2.2 rfl).2.1.mpr
      ⟨hnb, hst⟩⟩

/-- Counterexample to C5 as stated: two frames from the constructor state.
Frame 1 (dt = 1/100 at the origin) stamps.  Frame 2 (dt = 1/100, player at
(1,0,0)) moves the anchor `mTextureCenter` from (0,0) to (1,0) through the
smooth-following `updateCameraPosition` call, yet performs NO operation at
all — no blit and no grid swap (the texture index is unchanged).  The
anchor therefore changes without the corresponding grid swap in the same
scheduler step, and a consumer reading `(anchor, grid)` between the two
frames observes the fresh anchor against the stale grid. -/
theorem anchor_atomicity_cex :
    (update true (update true initState (1/100) ⟨0, 0, 0⟩).1 (1/100)
        ⟨1, 0, 0⟩).1.textureCenter = ⟨1, 0⟩ ∧
    (update true initState (1/100) ⟨0, 0, 0⟩).1.textureCenter = ⟨0, 0⟩ ∧
    (⟨1, 0⟩ : Vec2) ≠ ⟨0, 0⟩ ∧
    (update true (update true initState (1/100) ⟨0, 0, 0⟩).1 (1/100)
        ⟨1, 0, 0⟩).2 = [] ∧
    (update true (update true initState (1/100) ⟨0, 0, 0⟩).1 (1/100)
        ⟨1, 0, 0⟩).1.currentTextureIndex =
      (update true initState (1/100) ⟨0, 0, 0⟩).1.currentTextureIndex := by
  norm_num [update, activate, shouldBeActive, clearMasks, midState,
    updateTerrainParameters, detectTerrainTexture, blitCondition,
    stampCondition, updateCameraPosition, stampFootprint, blitTexture,
    applyDecay, advanceStampTimer, advanceDecayTimer, decayDue, initState,
    sqNorm2, sqNorm3, vsub2, vsub3, Vec2.mk.injEq]

/-- C5 (amended).  The anchor `mTextureCenter` deliberately follows the
player on every active frame (smooth following), including frames that
perform no grid operation, so it does NOT change only with a recenter.
The atomicity that does hold concerns the blit reference center
`mLastBlitCenter`: whenever a frame changes it, that frame ran exactly the
blit operator, flipped the ping-pong grid index in the same scheduler step,
and set both the blit center and the anchor to the player's position. -/
theorem blit_center_atomicity (onSnow0 : Bool) (s : SDState) (dt : ℚ)
    (pos : Vec3)
    (h : (update onSnow0 s dt pos).1.lastBlitCenter ≠ s.lastBlitCenter) :
    (update onSnow0 s dt pos).2 = [SDOp.blit] ∧
    (update onSnow0 s dt pos).1.currentTextureIndex =
      1 - s.currentTextureIndex ∧
    (update onSnow0 s dt pos).1.lastBlitCenter = ⟨pos.x, pos.y⟩ ∧
    (update onSnow0 s dt pos).1.textureCenter = ⟨pos.x, pos.y⟩ := by
  by_cases he : s.enabled = true
  · have h2 : (activate onSnow0 s dt pos).active = true := by
      rw [activate_eq]; exact he
    by_cases hb : blitCondition (midState onSnow0 s dt pos) pos = true
    · refine ⟨by simp [update, he, h2, hb], ?_, ?_, ?_⟩
      · have h1 : (update onSnow0 s dt pos).1.currentTextureIndex =
            (blitTexture (midState onSnow0 s dt pos)).currentTextureIndex := by
          simp [update, he, h2, hb, updateCameraPosition]
        rw [h1]
        simp [blitTexture, midState_currentTextureIndex]
      · have h1 : (update onSnow0 s dt pos).1.lastBlitCenter =
            (⟨pos.x, pos.y⟩ : Vec2) := by
          simp [update, he, h2, hb, updateCameraPosition]
        exact h1
      · simp [update, he, h2, hb, updateCameraPosition]
    · exfalso
      refine h ?_
      by_cases hs : stampCondition
          (advanceStampTimer
            (updateCameraPosition (midState onSnow0 s dt pos) pos) dt) pos =
          true
      · have h1 : (update onSnow0 s dt pos).1.lastBlitCenter =
            (stampFootprint
              (advanceStampTimer
                (updateCameraPosition (midState onSnow0 s dt pos) pos)
                dt)).lastBlitCenter := by
          simp [update, he, h2, hb, hs]
        rw [h1]
        simp [stampFootprint, advanceStampTimer, updateCameraPosition,
          midState_lastBlitCenter]
      · by_cases hd : decayDue
            (advanceDecayTimer
              (advanceStampTimer
                (updateCameraPosition (midState onSnow0 s dt pos) pos) dt)
              dt) = true
        · have h1 : (update onSnow0 s dt pos).1.lastBlitCenter =
              (applyDecay
                (advanceDecayTimer
                  (advanceStampTimer
                    (updateCameraPosition (midState onSnow0 s dt pos) pos)
                    dt) dt)).lastBlitCenter := by
            simp [update, he, h2, hb, hs, hd]
          rw [h1]
          simp [applyDecay, advanceDecayTimer, advanceStampTimer,
            updateCameraPosition, midState_lastBlitCenter]
        · have h1 : (update onSnow0 s dt pos).1.lastBlitCenter =
              (advanceDecayTimer
                (advanceStampTimer
                  (updateCameraPosition (midState onSnow0 s dt pos) pos)
                  dt) dt).lastBlitCenter := by
            simp [update, he, h2, hb, hs, hd]
          rw [h1]
          simp [advanceDecayTimer, advanceStampTimer, updateCameraPosition,
            midState_lastBlitCenter]
  · exfalso
    have he' : s.enabled = false := by
      revert he; cases s.enabled <;> simp
    exact h (by simp [update, he'])

/-- Witness for C5 (amended): from the constructor state, a frame with the
player at (100, 0, 0) moves the anchor 100 > 50 units past the blit
threshold; the blit center changes, and exactly the blit runs. -/
theorem blit_center_atomicity_wit :
    (update true initState 1 ⟨100, 0, 0⟩).1.lastBlitCenter ≠
      initState.lastBlitCenter ∧
    (update true initState 1 ⟨100, 0, 0⟩).2 = [SDOp.blit] := by
  have h : (update true initState 1 ⟨100, 0, 0⟩).1.lastBlitCenter ≠
      initState.lastBlitCenter := by
    norm_num [update, activate, shouldBeActive, clearMasks, midState,
      updateTerrainParameters, detectTerrainTexture, blitCondition,
      stampCondition, updateCameraPosition, stampFootprint, blitTexture,
      applyDecay, advanceStampTimer, advanceDecayTimer, decayDue, initState,
      sqNorm2, sqNorm3, vsub2, vsub3, Vec2.mk.injEq]
  exact ⟨h, (blit_center_atomicity true initState 1 ⟨100, 0, 0⟩ h).1⟩

/-- C10.  `getDeformationTexture` returns null exactly when the system is
inactive or disabled; `setEnabled false` leaves the enabled flag false and
(from an enabled state) forces the active flag false; and after disabling,
every subsequent per-frame update leaves the system disabled, so
`getDeformationTexture` keeps returning null for any sequence of frames
until the system is re-enabled. -/
theorem getDeformationTexture_after_disable (s : SDState)
    (frames : List (Bool × ℚ × Vec3)) :
    (getDeformationTexture s = none ↔
      (s.active = false ∨ s.enabled = false)) ∧
    (setEnabled s false).enabled = false ∧
    (s.enabled = true → (setEnabled s false).active = false) ∧
    getDeformationTexture (runUpdates (setEnabled s false) frames) =
      none := by
  refine ⟨?_, setEnabled_false_enabled s, ?_, ?_⟩
  · by_cases h : s.active = false ∨ s.enabled = false <;>
      simp [getDeformationTexture, h]
  · intro he
    unfold setEnabled
    simp [he]
  · rw [runUpdates_disabled _ frames (setEnabled_false_enabled s)]
    simp [getDeformationTexture, setEnabled_false_enabled s]

/-- Witness for C10: disabling from the constructor state forces the active
flag off, and after one further frame the texture query still returns
null. -/
theorem getDeformationTexture_after_disable_wit :
    initState.enabled = true ∧
    (setEnabled initState false).active = false ∧
    getDeformationTexture
      (runUpdates (setEnabled initState false) [(true, 1, ⟨0, 0, 0⟩)]) =
      none :=
  ⟨rfl,
   (getDeformationTexture_after_disable initState
     [(true, 1, ⟨0, 0, 0⟩)]).2.2.1 rfl,
   (getDeformationTexture_after_disable initState
     [(true, 1, ⟨0, 0, 0⟩)]).2.2.2⟩

end Terrain
